import Mathlib

/-!
Shallow embedding of the Ayur-Ankh claim-processing backend
(`Backend/main.py`, `Backend/tasks.py`).

Python dictionaries become Lean structures; Python truthiness of the values
the code inspects is modelled explicitly (`PyJson.truthy`, `truthyOptStr`);
the external libraries (pydicom, PyMuPDF, pytesseract, fhir.resources,
hashlib, the wall clock) are modelled as capability inputs: each library
call's outcome (a value, or the exception it raised) is an explicit argument,
and the hash is an abstract function parameter `H : String → String`.
-/

namespace AyurAnkh

/-- Finding severity, the `confidence` field of a failure dict
(`tasks.py`, `_run_validation_engine`). -/
inductive Confidence where
  | CRITICAL
  | HIGH
  | MEDIUM
deriving DecidableEq, Repr

/-- One failure entry `{"confidence": ..., "reason": ...}`. -/
structure Finding where
  confidence : Confidence
  reason : String
deriving DecidableEq, Repr

/-- The `status` values returned by `_run_validation_engine`. -/
inductive ValStatus where
  | PASSED
  | PASSED_MEDIUM
  | FLAGGED_HIGH
  | FAILED_CRITICAL
deriving DecidableEq, Repr

/-- The dict returned by `_run_validation_engine`.  The source omits the
`failures` key in the `PASSED` case; an absent key is modelled as `[]`
(the `PASSED` branch is taken exactly when the list is empty). -/
structure ValidationResult where
  status : ValStatus
  failures : List Finding
deriving DecidableEq, Repr

/-- The `status` strings a task result dict can carry
(`tasks.py`, `process_claim_async`). -/
inductive TaskStatus where
  | PROCESSING
  | COMPLETED
  | FLAGGED
  | FAILED
  | ERROR
deriving DecidableEq, Repr

/-- A JSON value as produced by `json.loads` in `main.py`. -/
inductive PyJson where
  | null
  | bool (b : Bool)
  | num (n : Int)
  | str (s : String)
  | arr (elems : List PyJson)
  | obj (entries : List (String × PyJson))
deriving Repr

/-- Python truthiness of a JSON value (`if claim_data.get("consent_data")`). -/
def PyJson.truthy : PyJson → Bool
  | .null => false
  | .bool b => b
  | .num n => n != 0
  | .str s => s != ""
  | .arr elems => !elems.isEmpty
  | .obj entries => !entries.isEmpty

/-- Python truthiness of `dict.get(key)` over string-valued keys:
a missing key gives `None` (falsy), an empty string is falsy. -/
def truthyOptStr : Option String → Bool
  | none => false
  | some s => s != ""

/-- Python `str(x)` on the result of `dict.get(key)`: `str(None) = "None"`. -/
def pyStr : Option String → String
  | none => "None"
  | some s => s

/-- ASCII whitespace as stripped by Python `str.strip()` (the source's ids
and form fields are ASCII). -/
def pyIsSpace (c : Char) : Bool :=
  c == ' ' || c == '\t' || c == '\n' || c == '\r' || c == '\x0b' || c == '\x0c'

/-- Python `str.strip()`: drop leading and trailing whitespace. -/
def pyStrip (s : String) : String :=
  ⟨((s.data.dropWhile pyIsSpace).reverse.dropWhile pyIsSpace).reverse⟩

/-- Python `str.lower()` on one character (ASCII range). -/
def pyCharLower (c : Char) : Char :=
  if 65 ≤ c.toNat && c.toNat ≤ 90 then Char.ofNat (c.toNat + 32) else c

/-- Python `str.lower()`. -/
def pyLower (s : String) : String := ⟨s.data.map pyCharLower⟩

/-- Occurrence of `needle` as a contiguous prefix-at-some-position of `hay`. -/
def listContains (needle : List Char) : List Char → Bool
  | [] => needle.isEmpty
  | c :: rest => needle.isPrefixOf (c :: rest) || listContains needle rest

/-- Python `needle in hay` on strings (contiguous substring). -/
def strContains (needle hay : String) : Bool :=
  listContains needle.toList hay.toList

/-! ## Extraction adapters (`tasks.py` lines 21-51)

Each library call is modelled by its outcome: `ok` carries what the library
returned, `exn` the message of the exception it raised. -/

/-- Outcome of `pydicom.dcmread`; on success the dataset's optional tags. -/
inductive DicomRead where
  | ok (patientID patientName accessionNumber studyDate modality : Option String)
  | exn (msg : String)
deriving DecidableEq, Repr

/-- The dict `_process_dicom` returns: the five stringified fields, or
`{"error": str(e)}`. -/
inductive DicomMeta where
  | fields (patientID patientName accessionNumber studyDate modality : String)
  | error (msg : String)
deriving DecidableEq, Repr

/-- `dicom_meta.get("error")`: the error dict has only the `"error"` key. -/
def DicomMeta.getError : DicomMeta → Option String
  | .fields _ _ _ _ _ => none
  | .error msg => some msg

/-- `dicom_meta.get("PatientID")`: absent from the error dict. -/
def DicomMeta.getPatientID : DicomMeta → Option String
  | .fields pid _ _ _ _ => some pid
  | .error _ => none

/-- `_process_dicom`: wraps `pydicom.dcmread` in try/except; each absent tag
defaults to `"N/A"` via `ds.get(tag, "N/A")`; an exception becomes
`{"error": str(e)}`. -/
def processDicom : DicomRead → DicomMeta
  | .ok pid pname acc sdate modality =>
      .fields (pid.getD "N/A") (pname.getD "N/A") (acc.getD "N/A")
        (sdate.getD "N/A") (modality.getD "N/A")
  | .exn e => .error e

/-- Outcome of `fitz.open` + page iteration: the text of each page, or the
exception raised. -/
inductive PdfRead where
  | ok (pages : List String)
  | exn (msg : String)
deriving DecidableEq, Repr

/-- `_process_pdf`: concatenates the page texts; an exception becomes the
in-band string `"PDF Error: ..."`. -/
def processPdf : PdfRead → String
  | .ok pages => String.join pages
  | .exn e => "PDF Error: " ++ e

/-- Outcome of `Image.open` + `pytesseract.image_to_string`. -/
inductive OcrRead where
  | ok (text : String)
  | exn (msg : String)
deriving DecidableEq, Repr

/-- `_process_image_ocr`: the OCR text, or the in-band `"OCR Error: ..."`. -/
def processImageOcr : OcrRead → String
  | .ok text => text
  | .exn e => "OCR Error: " ++ e

/-! ## Submission data (`main.py`) -/

/-- The `claim_data` dict built in `submit_claim_async` (`main.py` 77-83). -/
structure ClaimData where
  verified_patient_id : String
  doctor_diagnosis : String
  identity_data : PyJson
  consent_data : PyJson
  patient_geotag : Option String

/-- The `file_paths` dict (`main.py` 61-71): `dicom` is always saved, the
rest only when the corresponding upload was provided. -/
structure FilePaths where
  dicom : String
  lab_pdf : Option String
  identity_doc : Option String
  consent_image : Option String
  patient_photo : Option String

/-- The data-preparation step (`main.py` 74-83).  `json.loads` is outside the
embedding: a supplied non-empty payload enters as its parsed `PyJson` value
(`some j`); an absent or empty payload takes the `else {}` branch (`none`). -/
def mkClaimData (verified_patient_id doctor_diagnosis : String)
    (verified_identity_payload digital_consent_payload : Option PyJson)
    (patient_geotag : Option String) : ClaimData :=
  { verified_patient_id := verified_patient_id
    doctor_diagnosis := doctor_diagnosis
    identity_data := verified_identity_payload.getD (.obj [])
    consent_data := digital_consent_payload.getD (.obj [])
    patient_geotag := patient_geotag }

/-! ## Validation engine (`tasks.py` lines 53-87)

Each rule appends zero or one failure; the engine is their concatenation in
rule order followed by the aggregation of lines 84-87. -/

/-- RULE 1 (lines 59-66): identity verification. -/
def rule1 (claim_data : ClaimData) (dicom_meta : DicomMeta) : Option Finding :=
  let verified_id := pyStrip claim_data.verified_patient_id
  let dicom_id := pyStrip (pyStr dicom_meta.getPatientID)
  if truthyOptStr dicom_meta.getError then
    some ⟨.CRITICAL, "DICOM Corrupt: " ++ dicom_meta.getError.getD ""⟩
  else if verified_id != dicom_id then
    some ⟨.CRITICAL,
      "Patient ID Mismatch: Form(" ++ verified_id ++ ") vs DICOM(" ++ dicom_id ++ ")"⟩
  else none

/-- RULE 2 (lines 68-72): clinical consistency. -/
def rule2 (claim_data : ClaimData) (lab_text : String) : Option Finding :=
  let diag := pyLower claim_data.doctor_diagnosis
  let lab := pyLower lab_text
  if (strContains "critical" diag || strContains "fracture" diag)
      && strContains "normal" lab then
    some ⟨.HIGH, "Lab report says \x27Normal\x27 but Diagnosis is Critical."⟩
  else none

/-- RULE 3 (lines 74-77): geotag fraud check. -/
def rule3 (claim_data : ClaimData) (file_paths : FilePaths) : Option Finding :=
  if truthyOptStr file_paths.patient_photo
      && !truthyOptStr claim_data.patient_geotag then
    some ⟨.MEDIUM, "Patient photo provided, but GPS geotag data is missing."⟩
  else none

/-- RULE 4 (lines 79-82): consent verification. -/
def rule4 (claim_data : ClaimData) (file_paths : FilePaths) : Option Finding :=
  if !claim_data.consent_data.truthy
      && !truthyOptStr file_paths.consent_image then
    some ⟨.CRITICAL, "Missing Patient Consent (Payload or Image required)."⟩
  else none

/-- Aggregation (lines 84-87). -/
def aggregateStatus (failures : List Finding) : ValidationResult :=
  if failures.isEmpty then ⟨.PASSED, failures⟩
  else if failures.any (fun f => f.confidence == .CRITICAL) then
    ⟨.FAILED_CRITICAL, failures⟩
  else if failures.any (fun f => f.confidence == .HIGH) then
    ⟨.FLAGGED_HIGH, failures⟩
  else ⟨.PASSED_MEDIUM, failures⟩

/-- `_run_validation_engine` (lines 53-87).  The `ocr_results` parameter is
accepted but never read, exactly as in the source. -/
def runValidationEngine (claim_data : ClaimData) (dicom_meta : DicomMeta)
    (lab_text : String) (file_paths : FilePaths)
    (ocr_results : List (String × String)) : ValidationResult :=
  let _ := ocr_results
  aggregateStatus
    ((rule1 claim_data dicom_meta).toList ++ (rule2 claim_data lab_text).toList
      ++ (rule3 claim_data file_paths).toList
      ++ (rule4 claim_data file_paths).toList)

/-! ## FHIR bundle generation (`tasks.py` lines 89-108) -/

/-- What `_generate_mock_fhir` returns: the bundle (whose payload carries the
patient id and diagnosis), or `{"error": "FHIR Generation Failed: ..."}`. -/
inductive FhirResult where
  | bundle (patientId diagnosis : String)
  | error (msg : String)
deriving DecidableEq, Repr

/-- `_generate_mock_fhir`: the fhir.resources library calls are wrapped in
try/except; their outcome is the capability input `fhirLib`. -/
def generateMockFhir (claim_data : ClaimData)
    (fhirLib : Except String Unit) : FhirResult :=
  match fhirLib with
  | .ok _ => .bundle claim_data.verified_patient_id claim_data.doctor_diagnosis
  | .error e => .error ("FHIR Generation Failed: " ++ e)

/-! ## Worker orchestration (`tasks.py` lines 111-169) -/

/-- The results dict returned at line 163 (the non-exception path). -/
structure OkResults where
  status : TaskStatus
  steps_completed : List String
  ocr_results : List (String × String)
  dicom_metadata : DicomMeta
  lab_report_text : String
  validation_result : ValidationResult
  fhir_bundle : Option FhirResult
deriving Repr

/-- What `process_claim_async` returns: the results dict, or the
`{"status": "ERROR", "error": str(e)}` dict from the except branch. -/
inductive TaskResult where
  | ok (r : OkResults)
  | errorResult (msg : String)
deriving Repr

/-- The `status` field of either returned dict. -/
def TaskResult.status : TaskResult → TaskStatus
  | .ok r => r.status
  | .errorResult _ => .ERROR

/-- Outcomes of the library calls the worker makes, plus an optional
unexpected fault raised inside the try block before the pipeline runs
(e.g. `self.update_state` failing against the broker). -/
structure World where
  dicomRead : DicomRead
  pdfRead : PdfRead
  identityOcr : OcrRead
  consentOcr : OcrRead
  fhirLib : Except String Unit
  orchFault : Option String

/-- Final status determination (`tasks.py` lines 156-161). -/
def finalStatus : ValStatus → TaskStatus
  | .FAILED_CRITICAL => .FAILED
  | .FLAGGED_HIGH => .FLAGGED
  | _ => .COMPLETED

/-- The body of the worker's try block (`tasks.py` lines 118-163): DICOM
extraction, the optional-file loop (lab_pdf / identity_doc / consent_image),
the `"N/A"` lab-text default, validation, conditional FHIR generation and
final status determination.  `.error` is an exception escaping the body. -/
def pipelineBody (claim_data : ClaimData) (file_paths : FilePaths)
    (w : World) : Except String OkResults :=
  match w.orchFault with
  | some e => .error e
  | none =>
    let dicom_metadata := processDicom w.dicomRead
    let labPair : List (String × String) :=
      match file_paths.lab_pdf with
      | some _ => [("lab_pdf", processPdf w.pdfRead)]
      | none => []
    let idPair : List (String × String) :=
      match file_paths.identity_doc with
      | some _ => [("identity_doc", processImageOcr w.identityOcr)]
      | none => []
    let consentPair : List (String × String) :=
      match file_paths.consent_image with
      | some _ => [("consent_image", processImageOcr w.consentOcr)]
      | none => []
    let ocr_results := labPair ++ idPair ++ consentPair
    let steps_completed := ["DICOM"]
      ++ (if file_paths.lab_pdf.isSome then ["LAB_PDF"] else [])
      ++ (if file_paths.identity_doc.isSome then ["IDENTITY_OCR"] else [])
      ++ (if file_paths.consent_image.isSome then ["CONSENT_OCR"] else [])
    let lab_report_text :=
      match file_paths.lab_pdf with
      | some _ => processPdf w.pdfRead
      | none => "N/A"
    let val_res :=
      runValidationEngine claim_data dicom_metadata lab_report_text
        file_paths ocr_results
    let fhir_bundle :=
      if val_res.status == .PASSED || val_res.status == .FLAGGED_HIGH
          || val_res.status == .PASSED_MEDIUM then
        some (generateMockFhir claim_data w.fhirLib)
      else none
    .ok { status := finalStatus val_res.status
          steps_completed := steps_completed
          ocr_results := ocr_results
          dicom_metadata := dicom_metadata
          lab_report_text := lab_report_text
          validation_result := val_res
          fhir_bundle := fhir_bundle }

/-- `process_claim_async`: the try/except boundary (lines 118, 165-166);
any exception escaping the body becomes the ERROR result dict. -/
def processClaimAsync (claim_data : ClaimData) (file_paths : FilePaths)
    (w : World) : TaskResult :=
  match pipelineBody claim_data file_paths w with
  | .ok r => .ok r
  | .error e => .errorResult e

/-! ## Idempotency guard (`main.py` lines 26-28, 44-54, 56-89) -/

/-- The `IDEMPOTENCY_DB` in-memory map, key → task id. -/
abbrev IdemDB := List (String × String)

/-- `idempotency_key in IDEMPOTENCY_DB` / `IDEMPOTENCY_DB[key]`. -/
def dbLookup (db : IdemDB) (key : String) : Option String :=
  (db.find? (fun p => p.1 == key)).map (fun p => p.2)

/-- The raw string hashed when no explicit key is supplied (`main.py` 46):
`f"{verified_patient_id}-{dicom_file.filename}-{doctor_diagnosis}"`. -/
def keyRaw (patient_id dicom_filename diagnosis : String) : String :=
  patient_id ++ "-" ++ dicom_filename ++ "-" ++ diagnosis

/-- The derived key (`main.py` 47): the digest of `keyRaw` under the hash
capability `H` (sha256 hexdigest in the source). -/
def deriveKey (H : String → String)
    (patient_id dicom_filename diagnosis : String) : String :=
  H (keyRaw patient_id dicom_filename diagnosis)

/-- Outcome of a submission: admitted with a fresh task id, or the
409 duplicate response carrying the originally bound task id. -/
inductive Admission where
  | accepted (task_id : String)
  | duplicate (original_task_id : String)
deriving DecidableEq, Repr

/-- The admission portion of `submit_claim_async` (`main.py` 50-54, 86-87):
a seen key is rejected before any file is saved or task launched; a novel
key saves files, launches the task (recorded in `launched`) and binds the
key.  Returns (decision, updated DB, updated launched-task list). -/
def submitClaim (db : IdemDB) (launched : List String)
    (idempotency_key new_task_id : String) :
    Admission × IdemDB × List String :=
  match dbLookup db idempotency_key with
  | some orig => (.duplicate orig, db, launched)
  | none =>
      (.accepted new_task_id, db ++ [(idempotency_key, new_task_id)],
        launched ++ [new_task_id])

/-- A submission without an explicit idempotency key (`main.py` 45-47):
the key is derived from the (patient id, dicom filename, diagnosis) triple. -/
def submitClaimDerived (H : String → String) (db : IdemDB)
    (launched : List String) (patient_id dicom_filename diagnosis : String)
    (new_task_id : String) : Admission × IdemDB × List String :=
  submitClaim db launched (deriveKey H patient_id dicom_filename diagnosis)
    new_task_id

/-! ## Doctor override (`main.py` lines 99-103) -/

/-- One entry of `IMMUTABLE_LOGS`. -/
structure OverrideLog where
  event : String
  timestamp : String
  task_id : String
  doctor_id : String
  reason : String
  signature : String
deriving DecidableEq, Repr

/-- The string hashed for the signature (`main.py` 101):
`f"{task_id}{doctor_id}{override_reason}"` — note: no timestamp. -/
def sealInput (task_id doctor_id override_reason : String) : String :=
  task_id ++ doctor_id ++ override_reason

/-- A table of task states, to express that the override endpoint leaves
every task untouched. -/
abbrev TaskTable := List (String × TaskStatus)

/-- `doctor_override`: builds the log entry (timestamp from the clock
capability `now`, signature from the hash capability `H`), appends it to
`IMMUTABLE_LOGS`, touches no task.  Returns (entry, updated logs, tasks). -/
def doctorOverride (H : String → String) (now : String)
    (logs : List OverrideLog) (tasks : TaskTable)
    (task_id doctor_id override_reason : String) :
    OverrideLog × List OverrideLog × TaskTable :=
  let log : OverrideLog :=
    { event := "OVERRIDE"
      timestamp := now
      task_id := task_id
      doctor_id := doctor_id
      reason := override_reason
      signature := H (sealInput task_id doctor_id override_reason) }
  (log, logs ++ [log], tasks)

/-! ## Shared lemmas -/

theorem any_conf_iff (fs : List Finding) (c : Confidence) :
    fs.any (fun f => f.confidence == c) = true ↔ ∃ f ∈ fs, f.confidence = c := by
  simp [List.any_eq_true]

theorem conf_cases (c : Confidence) :
    c = .CRITICAL ∨ c = .HIGH ∨ c = .MEDIUM := by
  cases c <;> simp

theorem any_conf_false (fs : List Finding) (c : Confidence)
    (h : ¬ ∃ f ∈ fs, f.confidence = c) :
    fs.any (fun f => f.confidence == c) = false := by
  rw [Bool.eq_false_iff]
  intro hgood
  exact h ((any_conf_iff fs c).mp hgood)

/-- C1: the outcome status of the validation engine is the maximum severity
present under the strict ladder: FAILED_CRITICAL iff some CRITICAL finding
exists, FLAGGED_HIGH iff some HIGH finding exists and no CRITICAL,
PASSED_MEDIUM iff some MEDIUM finding exists and nothing higher, and PASSED
iff the finding list is empty — the characterisations depend only on which
severities occur, never on count or order of lower-severity findings. -/
theorem C1_validation_ladder (fs : List Finding) :
    ((aggregateStatus fs).status = .FAILED_CRITICAL ↔
      ∃ f ∈ fs, f.confidence = .CRITICAL) ∧
    ((aggregateStatus fs).status = .FLAGGED_HIGH ↔
      (∃ f ∈ fs, f.confidence = .HIGH) ∧ ∀ f ∈ fs, f.confidence ≠ .CRITICAL) ∧
    ((aggregateStatus fs).status = .PASSED_MEDIUM ↔
      (∃ f ∈ fs, f.confidence = .MEDIUM) ∧
        ∀ f ∈ fs, f.confidence ≠ .CRITICAL ∧ f.confidence ≠ .HIGH) ∧
    ((aggregateStatus fs).status = .PASSED ↔ fs = []) := by
  by_cases hc : ∃ f ∈ fs, f.confidence = Confidence.CRITICAL
  · have hca := (any_conf_iff fs .CRITICAL).mpr hc
    have hnil : fs ≠ [] := by
      rcases hc with ⟨f, hf, -⟩
      intro h
      subst h
      exact absurd hf (List.not_mem_nil f)
    have hE : fs.isEmpty = false := by simp [List.isEmpty_iff, hnil]
    have hstat : (aggregateStatus fs).status = .FAILED_CRITICAL := by
      simp [aggregateStatus, hE, hca]
    refine ⟨⟨fun _ => hc, fun _ => hstat⟩, ?_, ?_, ?_⟩
    · rw [hstat]
      refine ⟨fun h => ValStatus.noConfusion h, ?_⟩
      rintro ⟨-, hall⟩
      rcases hc with ⟨f, hf, hcf⟩
      exact absurd hcf (hall f hf)
    · rw [hstat]
      refine ⟨fun h => ValStatus.noConfusion h, ?_⟩
      rintro ⟨-, hall⟩
      rcases hc with ⟨f, hf, hcf⟩
      exact absurd hcf (hall f hf).1
    · rw [hstat]
      refine ⟨fun h => ValStatus.noConfusion h, ?_⟩
      intro h
      exact absurd h hnil
  · by_cases hh : ∃ f ∈ fs, f.confidence = Confidence.HIGH
    · have hcaf := any_conf_false fs .CRITICAL hc
      have hha := (any_conf_iff fs .HIGH).mpr hh
      have hnil : fs ≠ [] := by
        rcases hh with ⟨f, hf, -⟩
        intro h
        subst h
        exact absurd hf (List.not_mem_nil f)
      have hE : fs.isEmpty = false := by simp [List.isEmpty_iff, hnil]
      have hstat : (aggregateStatus fs).status = .FLAGGED_HIGH := by
        simp [aggregateStatus, hE, hcaf, hha]
      refine ⟨?_, ?_, ?_, ?_⟩
      · rw [hstat]
        exact ⟨fun h => ValStatus.noConfusion h, fun h => absurd h hc⟩
      · rw [hstat]
        exact ⟨fun _ => ⟨hh, fun f hf hcf => hc ⟨f, hf, hcf⟩⟩, fun _ => rfl⟩
      · rw [hstat]
        refine ⟨fun h => ValStatus.noConfusion h, ?_⟩
        rintro ⟨-, hall⟩
        rcases hh with ⟨f, hf, hhf⟩
        exact absurd hhf (hall f hf).2
      · rw [hstat]
        refine ⟨fun h => ValStatus.noConfusion h, ?_⟩
        intro h
        exact absurd h hnil
    · by_cases hnil : fs = []
      · subst hnil
        refine ⟨?_, ?_, ?_, ?_⟩ <;>
          simp [aggregateStatus]
      · have hE : fs.isEmpty = false := by simp [List.isEmpty_iff, hnil]
        have hcaf := any_conf_false fs .CRITICAL hc
        have hhaf := any_conf_false fs .HIGH hh
        have hstat : (aggregateStatus fs).status = .PASSED_MEDIUM := by
          simp [aggregateStatus, hE, hcaf, hhaf]
        have hallm : ∀ f ∈ fs, f.confidence = Confidence.MEDIUM := by
          intro f hf
          rcases conf_cases f.confidence with h | h | h
          · exact absurd ⟨f, hf, h⟩ hc
          · exact absurd ⟨f, hf, h⟩ hh
          · exact h
        obtain ⟨f0, fs', rfl⟩ := List.exists_cons_of_ne_nil hnil
        refine ⟨?_, ?_, ?_, ?_⟩
        · rw [hstat]
          exact ⟨fun h => ValStatus.noConfusion h, fun h => absurd h hc⟩
        · rw [hstat]
          refine ⟨fun h => ValStatus.noConfusion h, ?_⟩
          rintro ⟨he, -⟩
          exact absurd he hh
        · rw [hstat]
          refine ⟨fun _ => ?_, fun _ => rfl⟩
          refine ⟨⟨f0, List.mem_cons_self f0 fs',
            hallm f0 (List.mem_cons_self f0 fs')⟩, ?_⟩
          intro f hf
          rw [hallm f hf]
          exact ⟨fun h => Confidence.noConfusion h, fun h => Confidence.noConfusion h⟩
        · rw [hstat]
          exact ⟨fun h => ValStatus.noConfusion h, fun h => absurd h hnil⟩

/-- Closed instance of C1 at the finding list [HIGH, MEDIUM]. -/
theorem C1_validation_ladder_witness :
    (aggregateStatus [⟨Confidence.HIGH, "h"⟩, ⟨Confidence.MEDIUM, "m"⟩]).status
      = ValStatus.FLAGGED_HIGH :=
  (C1_validation_ladder [⟨Confidence.HIGH, "h"⟩, ⟨Confidence.MEDIUM, "m"⟩]).2.1.mpr
    ⟨⟨⟨Confidence.HIGH, "h"⟩, by simp, rfl⟩, by decide⟩

/-- C2 counterexample: an extraction result carrying the error descriptor
`""` does not produce the corrupt-source CRITICAL finding: the truthiness
test `if dicom_meta.get("error")` fails on the empty string, the code falls
through to the id comparison, and with declared patient id `"None"` (equal
to `str(None)` for the missing PatientID key) Rule 1 emits no finding at
all — the whole engine run passes. -/
theorem C2_counterexample :
    (DicomMeta.error "").getError.isSome = true ∧
    rule1 { verified_patient_id := "None", doctor_diagnosis := "checkup",
            identity_data := .obj [], consent_data := .obj [("signed", .bool true)],
            patient_geotag := none } (DicomMeta.error "") = none ∧
    runValidationEngine
      { verified_patient_id := "None", doctor_diagnosis := "checkup",
        identity_data := .obj [], consent_data := .obj [("signed", .bool true)],
        patient_geotag := none } (DicomMeta.error "") "N/A"
      { dicom := "d.dcm", lab_pdf := none, identity_doc := none,
        consent_image := none, patient_photo := none } []
      = ⟨.PASSED, []⟩ := by
  refine ⟨rfl, by decide, by decide⟩

/-- C2 amended: Rule 1 emits the corrupt-source CRITICAL finding exactly
when the extraction result carries a NON-EMPTY error descriptor; when it
carries no error descriptor, the declared and extracted patient ids are
compared after trimming, case-sensitively, and a mismatch emits exactly one
CRITICAL finding naming both values while equal trimmed ids emit none. -/
theorem C2_rule1_amended (cd : ClaimData) (dm : DicomMeta) :
    (∀ e, dm.getError = some e → e ≠ "" →
      rule1 cd dm = some ⟨.CRITICAL, "DICOM Corrupt: " ++ e⟩) ∧
    (dm.getError = none →
      rule1 cd dm =
        if pyStrip cd.verified_patient_id ≠ pyStrip (pyStr dm.getPatientID) then
          some ⟨.CRITICAL,
            "Patient ID Mismatch: Form(" ++ pyStrip cd.verified_patient_id
              ++ ") vs DICOM(" ++ pyStrip (pyStr dm.getPatientID) ++ ")"⟩
        else none) := by
  constructor
  · intro e he hne
    cases dm with
    | fields p n a s m => exact absurd he (by simp [DicomMeta.getError])
    | error msg =>
        have hme : msg = e := by simpa [DicomMeta.getError] using he
        subst hme
        simp [rule1, truthyOptStr, DicomMeta.getError, bne_iff_ne, hne]
  · intro he
    cases dm with
    | error msg => exact absurd he (by simp [DicomMeta.getError])
    | fields p n a s m =>
        by_cases heq :
          pyStrip cd.verified_patient_id
            = pyStrip (pyStr (DicomMeta.fields p n a s m).getPatientID)
        · simp only [rule1, truthyOptStr, DicomMeta.getError,
            DicomMeta.getPatientID, pyStr] at heq ⊢
          simp [heq]
        · simp only [rule1, truthyOptStr, DicomMeta.getError,
            DicomMeta.getPatientID, pyStr] at heq ⊢
          simp [bne_iff_ne, heq]

/-- Closed instance of the amended C2: error descriptor "boom" yields the
corrupt-source CRITICAL finding. -/
theorem C2_rule1_amended_witness :
    rule1 { verified_patient_id := "P123", doctor_diagnosis := "x",
            identity_data := .obj [], consent_data := .obj [],
            patient_geotag := none } (DicomMeta.error "boom")
      = some ⟨Confidence.CRITICAL, "DICOM Corrupt: boom"⟩ :=
  (C2_rule1_amended
    { verified_patient_id := "P123", doctor_diagnosis := "x",
      identity_data := .obj [], consent_data := .obj [],
      patient_geotag := none } (DicomMeta.error "boom")).1 "boom" rfl
    (by decide)

theorem dbLookup_append (db : IdemDB) (k t : String)
    (h : dbLookup db k = none) :
    dbLookup (db ++ [(k, t)]) k = some t := by
  induction db with
  | nil => simp [dbLookup, List.find?]
  | cons hd tl ih =>
      rw [dbLookup, List.find?_cons] at h
      rw [dbLookup, List.cons_append, List.find?_cons]
      by_cases hk : (hd.1 == k) = true
      · rw [hk] at h
        simp at h
      · rw [Bool.eq_false_iff.mpr hk] at h ⊢
        exact ih h

/-- C3 counterexample: the derived key is a digest of the dash-joined string
`patient_id ++ "-" ++ dicom_filename ++ "-" ++ diagnosis`; the two distinct
triples ("a-b", "c", "d") and ("a", "b-c", "d") join to the identical string
"a-b-c-d", so any digest of it — sha256 included — collides: distinct
triples do NOT always yield distinct keys. -/
theorem C3_counterexample :
    (("a-b", "c", "d") : String × String × String) ≠ ("a", "b-c", "d") ∧
    keyRaw "a-b" "c" "d" = keyRaw "a" "b-c" "d" := by
  exact ⟨by decide, by decide⟩

/-- C3 amended: without an explicit key the key is derived deterministically
from the (patient id, dicom filename, diagnosis) triple; a fresh key is
admitted and bound, and resubmitting the identical triple derives the same
key and is rejected with the first TaskID, leaving the DB and the launched
task list untouched.  Distinct triples yield distinct keys only when their
dash-joined strings differ (and the digest is injective on them); fields
containing the separator can make distinct triples collide. -/
theorem C3_idempotency_amended (H : String → String) (db : IdemDB)
    (launched : List String) (p f d t1 t2 : String)
    (hfresh : dbLookup db (deriveKey H p f d) = none) :
    (submitClaimDerived H db launched p f d t1).1 = .accepted t1 ∧
    (submitClaimDerived H db launched p f d t1).2.1
      = db ++ [(deriveKey H p f d, t1)] ∧
    (submitClaimDerived H
        (submitClaimDerived H db launched p f d t1).2.1
        (submitClaimDerived H db launched p f d t1).2.2 p f d t2
      = (.duplicate t1, (submitClaimDerived H db launched p f d t1).2.1,
          (submitClaimDerived H db launched p f d t1).2.2)) ∧
    (∀ p2 f2 d2, Function.Injective H → keyRaw p f d ≠ keyRaw p2 f2 d2 →
      deriveKey H p f d ≠ deriveKey H p2 f2 d2) := by
  have hsub :
      submitClaimDerived H db launched p f d t1
        = (.accepted t1, db ++ [(deriveKey H p f d, t1)], launched ++ [t1]) := by
    rw [submitClaimDerived, submitClaim, hfresh]
  refine ⟨by rw [hsub], by rw [hsub], ?_, ?_⟩
  · rw [hsub]
    rw [submitClaimDerived, submitClaim,
      dbLookup_append db (deriveKey H p f d) t1 hfresh]
  · intro p2 f2 d2 hinj hne he
    exact hne (hinj he)

/-- Closed instance of the amended C3: a fresh derived submission is
accepted. -/
theorem C3_idempotency_amended_witness :
    (submitClaimDerived (fun s => s) [] [] "P1" "scan.dcm" "flu" "T1").1
      = Admission.accepted "T1" :=
  (C3_idempotency_amended (fun s => s) [] [] "P1" "scan.dcm" "flu" "T1" "T2"
    rfl).1

/-! ## Pipeline helper lemmas -/

theorem pipelineBody_ok_spec (cd : ClaimData) (fp : FilePaths) (w : World)
    (r : OkResults) (h : pipelineBody cd fp w = .ok r) :
    r.status = finalStatus r.validation_result.status ∧
    r.validation_result = runValidationEngine cd r.dicom_metadata
      r.lab_report_text fp r.ocr_results ∧
    r.fhir_bundle
      = (if r.validation_result.status == .PASSED
            || r.validation_result.status == .FLAGGED_HIGH
            || r.validation_result.status == .PASSED_MEDIUM then
          some (generateMockFhir cd w.fhirLib)
        else none) ∧
    r.dicom_metadata = processDicom w.dicomRead ∧
    r.lab_report_text = (match fp.lab_pdf with
      | some _ => processPdf w.pdfRead
      | none => "N/A") := by
  cases ho : w.orchFault with
  | some e =>
      rw [pipelineBody, ho] at h
      exact Except.noConfusion h
  | none =>
      rw [pipelineBody, ho] at h
      injection h with h2
      subst h2
      exact ⟨rfl, rfl, rfl, rfl, rfl⟩

theorem process_status_cases (cd : ClaimData) (fp : FilePaths) (w : World) :
    (∃ e, pipelineBody cd fp w = .error e ∧
      processClaimAsync cd fp w = .errorResult e) ∨
    (∃ r, pipelineBody cd fp w = .ok r ∧
      processClaimAsync cd fp w = .ok r) := by
  cases hb : pipelineBody cd fp w with
  | error e => exact Or.inl ⟨e, rfl, by rw [processClaimAsync, hb]⟩
  | ok r => exact Or.inr ⟨r, rfl, by rw [processClaimAsync, hb]⟩

theorem finalStatus_terminal (s : ValStatus) :
    finalStatus s = .COMPLETED ∨ finalStatus s = .FLAGGED
      ∨ finalStatus s = .FAILED := by
  cases s <;> simp [finalStatus]

theorem fhir_gate (s : ValStatus) (x : FhirResult) :
    (if s == .PASSED || s == .FLAGGED_HIGH || s == .PASSED_MEDIUM then
        some x
      else none).isSome = true
      ↔ s ≠ .FAILED_CRITICAL := by
  cases s <;> simp

theorem fhir_gate2 (s : ValStatus) (cd : ClaimData) (e : String)
    (hs : s ≠ .FAILED_CRITICAL) :
    (if s == .PASSED || s == .FLAGGED_HIGH || s == .PASSED_MEDIUM then
        some (generateMockFhir cd (.error e))
      else none)
      = some (.error ("FHIR Generation Failed: " ++ e)) := by
  cases s with
  | PASSED => simp [generateMockFhir]
  | PASSED_MEDIUM => simp [generateMockFhir]
  | FLAGGED_HIGH => simp [generateMockFhir]
  | FAILED_CRITICAL => exact absurd rfl hs

/-- C4: whenever the worker body completes, the result's terminal status is
`finalStatus` of the validation status, and this mapping sends
FAILED_CRITICAL to FAILED, FLAGGED_HIGH to FLAGGED, and PASSED or
PASSED_MEDIUM to COMPLETED. -/
theorem C4_terminal_mapping (cd : ClaimData) (fp : FilePaths) (w : World)
    (r : OkResults) (h : pipelineBody cd fp w = .ok r) :
    r.status = finalStatus r.validation_result.status ∧
    finalStatus .FAILED_CRITICAL = .FAILED ∧
    finalStatus .FLAGGED_HIGH = .FLAGGED ∧
    finalStatus .PASSED = .COMPLETED ∧
    finalStatus .PASSED_MEDIUM = .COMPLETED :=
  ⟨(pipelineBody_ok_spec cd fp w r h).1, rfl, rfl, rfl, rfl⟩

/-- Closed instance of C4: a clean fully-passing run terminates COMPLETED,
matching `finalStatus` of its PASSED validation outcome. -/
theorem C4_terminal_mapping_witness :
    (⟨.COMPLETED, ["DICOM"], [], .fields "P1" "N/A" "N/A" "N/A" "N/A", "N/A",
        ⟨.PASSED, []⟩, some (.bundle "P1" "checkup")⟩ : OkResults).status
      = finalStatus
        (⟨.COMPLETED, ["DICOM"], [], .fields "P1" "N/A" "N/A" "N/A" "N/A",
            "N/A", ⟨.PASSED, []⟩,
            some (.bundle "P1" "checkup")⟩ : OkResults).validation_result.status :=
  (C4_terminal_mapping
    { verified_patient_id := "P1", doctor_diagnosis := "checkup",
      identity_data := .obj [], consent_data := .obj [("ok", .bool true)],
      patient_geotag := none }
    { dicom := "d.dcm", lab_pdf := none, identity_doc := none,
      consent_image := none, patient_photo := none }
    { dicomRead := .ok (some "P1") none none none none, pdfRead := .ok [],
      identityOcr := .ok "", consentOcr := .ok "", fhirLib := .ok (),
      orchFault := none }
    ⟨.COMPLETED, ["DICOM"], [], .fields "P1" "N/A" "N/A" "N/A" "N/A", "N/A",
      ⟨.PASSED, []⟩, some (.bundle "P1" "checkup")⟩ rfl).1

/-- C7: the FHIR step runs iff the validation outcome is not
FAILED_CRITICAL; when the FHIR library fails, the failure is recorded as an
error descriptor inside the result payload; and the task's terminal status
is unchanged by the FHIR library's outcome. -/
theorem C7_fhir_best_effort (cd : ClaimData) (fp : FilePaths) (w : World)
    (r : OkResults) (h : pipelineBody cd fp w = .ok r) :
    (r.fhir_bundle.isSome = true
      ↔ r.validation_result.status ≠ .FAILED_CRITICAL) ∧
    (∀ e, w.fhirLib = .error e → r.validation_result.status ≠ .FAILED_CRITICAL →
      r.fhir_bundle = some (.error ("FHIR Generation Failed: " ++ e))) ∧
    (∀ flib2, (processClaimAsync cd fp { w with fhirLib := flib2 }).status
      = (processClaimAsync cd fp w).status) := by
  obtain ⟨-, -, hfhir, -, -⟩ := pipelineBody_ok_spec cd fp w r h
  refine ⟨?_, ?_, ?_⟩
  · rw [hfhir]
    exact fhir_gate _ _
  · intro e hf hs
    rw [hfhir, hf]
    exact fhir_gate2 _ cd e hs
  · intro flib2
    cases ho : w.orchFault with
    | some e =>
        simp only [processClaimAsync, pipelineBody, ho]
    | none =>
        simp only [processClaimAsync, pipelineBody, ho]
        rfl

/-- Closed instance of C7: with the validation passing and the FHIR library
failing with "disk full", the failure is recorded in-band in the result. -/
theorem C7_fhir_best_effort_witness :
    (⟨.COMPLETED, ["DICOM"], [], .fields "P7" "N/A" "N/A" "N/A" "N/A", "N/A",
        ⟨.PASSED, []⟩,
        some (.error "FHIR Generation Failed: disk full")⟩ : OkResults).fhir_bundle
      = some (.error ("FHIR Generation Failed: " ++ "disk full")) :=
  (C7_fhir_best_effort
    { verified_patient_id := "P7", doctor_diagnosis := "checkup",
      identity_data := .obj [], consent_data := .obj [("ok", .bool true)],
      patient_geotag := none }
    { dicom := "d.dcm", lab_pdf := none, identity_doc := none,
      consent_image := none, patient_photo := none }
    { dicomRead := .ok (some "P7") none none none none, pdfRead := .ok [],
      identityOcr := .ok "", consentOcr := .ok "",
      fhirLib := .error "disk full", orchFault := none }
    ⟨.COMPLETED, ["DICOM"], [], .fields "P7" "N/A" "N/A" "N/A" "N/A", "N/A",
      ⟨.PASSED, []⟩, some (.error "FHIR Generation Failed: disk full")⟩
    rfl).2.1 "disk full" rfl (by decide)

/-- C8: the worker never leaves the task non-terminal: every run produces a
result whose status is one of COMPLETED, FLAGGED, FAILED, ERROR; a fault
raised inside the try block (and any fault escaping the body) is caught at
the boundary and becomes the ERROR result carrying the fault description. -/
theorem C8_worker_boundary (cd : ClaimData) (fp : FilePaths) (w : World) :
    ((processClaimAsync cd fp w).status = .COMPLETED ∨
      (processClaimAsync cd fp w).status = .FLAGGED ∨
      (processClaimAsync cd fp w).status = .FAILED ∨
      (processClaimAsync cd fp w).status = .ERROR) ∧
    (∀ e, w.orchFault = some e →
      processClaimAsync cd fp w = .errorResult e) ∧
    (∀ e, pipelineBody cd fp w = .error e →
      processClaimAsync cd fp w = .errorResult e) := by
  refine ⟨?_, ?_, ?_⟩
  · rcases process_status_cases cd fp w with ⟨e, -, hp⟩ | ⟨r, hb, hp⟩
    · rw [hp]
      exact Or.inr (Or.inr (Or.inr rfl))
    · rw [hp]
      have h1 := (pipelineBody_ok_spec cd fp w r hb).1
      rcases finalStatus_terminal r.validation_result.status with ht | ht | ht
      · exact Or.inl (by rw [TaskResult.status, h1, ht])
      · exact Or.inr (Or.inl (by rw [TaskResult.status, h1, ht]))
      · exact Or.inr (Or.inr (Or.inl (by rw [TaskResult.status, h1, ht])))
  · intro e ho
    rw [processClaimAsync, pipelineBody, ho]
  · intro e hb
    rw [processClaimAsync, hb]

/-- Closed instance of C8: a broker fault "boom" inside the try block yields
the ERROR result carrying "boom". -/
theorem C8_worker_boundary_witness :
    processClaimAsync
      { verified_patient_id := "P8", doctor_diagnosis := "checkup",
        identity_data := .obj [], consent_data := .obj [],
        patient_geotag := none }
      { dicom := "d.dcm", lab_pdf := none, identity_doc := none,
        consent_image := none, patient_photo := none }
      { dicomRead := .ok none none none none none, pdfRead := .ok [],
        identityOcr := .ok "", consentOcr := .ok "", fhirLib := .ok (),
        orchFault := some "boom" }
      = .errorResult "boom" :=
  (C8_worker_boundary
    { verified_patient_id := "P8", doctor_diagnosis := "checkup",
      identity_data := .obj [], consent_data := .obj [],
      patient_geotag := none }
    { dicom := "d.dcm", lab_pdf := none, identity_doc := none,
      consent_image := none, patient_photo := none }
    { dicomRead := .ok none none none none none, pdfRead := .ok [],
      identityOcr := .ok "", consentOcr := .ok "", fhirLib := .ok (),
      orchFault := some "boom" }).2.1 "boom" rfl

/-- C5 counterexample: a submission that DID supply a structured consent
payload — the empty JSON object, `json.loads("\x7b\x7d") = {}` — and no consent
image still gets the CRITICAL consent finding, because the engine tests the
Python truthiness of the parsed value and `{}` is falsy: the supplied
payload alone does not suppress the finding. -/
theorem C5_counterexample :
    (some (PyJson.obj [])).isSome = true ∧
    rule4 (mkClaimData "P1" "checkup" none (some (PyJson.obj [])) none)
      { dicom := "d.dcm", lab_pdf := none, identity_doc := none,
        consent_image := none, patient_photo := none }
      = some ⟨.CRITICAL, "Missing Patient Consent (Payload or Image required)."⟩ :=
  ⟨rfl, by decide⟩

/-- C5 amended: Rule 4 emits its CRITICAL finding iff the stored consent
value is falsy (no payload supplied, or the supplied payload parses to a
falsy JSON value such as the empty object) AND the consent-image entry is
falsy; a truthy consent payload, or a consent image, alone suppresses it,
and the only finding Rule 4 can emit is that CRITICAL one. -/
theorem C5_rule4_amended (cd : ClaimData) (fp : FilePaths) :
    ((rule4 cd fp).isSome = true
      ↔ cd.consent_data.truthy = false ∧ truthyOptStr fp.consent_image = false) ∧
    (∀ f, rule4 cd fp = some f →
      f = ⟨.CRITICAL, "Missing Patient Consent (Payload or Image required)."⟩) := by
  constructor
  · rw [rule4]
    by_cases h1 : cd.consent_data.truthy = false
    · by_cases h2 : truthyOptStr fp.consent_image = false
      · simp [h1, h2]
      · simp [h1, h2]
    · simp [h1]
  · intro f hf
    rw [rule4] at hf
    split at hf
    · exact (Option.some_inj.mp hf).symm
    · exact Option.noConfusion hf

/-- Closed instance of the amended C5: no payload and no image gives the
finding. -/
theorem C5_rule4_amended_witness :
    (rule4 (mkClaimData "P2" "checkup" none none none)
      { dicom := "d.dcm", lab_pdf := none, identity_doc := none,
        consent_image := none, patient_photo := none }).isSome = true :=
  (C5_rule4_amended (mkClaimData "P2" "checkup" none none none)
    { dicom := "d.dcm", lab_pdf := none, identity_doc := none,
      consent_image := none, patient_photo := none }).1.mpr ⟨rfl, rfl⟩

/-- C6 counterexample: two override actions for the identical
(taskId, actorId, reason) recorded at different timestamps carry the SAME
tamper-seal — the seal's digest input is `task_id ++ doctor_id ++ reason`
and never mentions the timestamp, so the entry's timestamp cannot be
verified from the seal. -/
theorem C6_counterexample :
    (doctorOverride (fun s => s) "2024-01-01T00:00:00" [] [] "T1" "D1"
        "patient re-examined").1.timestamp
      ≠ (doctorOverride (fun s => s) "2099-12-31T23:59:59" [] [] "T1" "D1"
          "patient re-examined").1.timestamp ∧
    (doctorOverride (fun s => s) "2024-01-01T00:00:00" [] [] "T1" "D1"
        "patient re-examined").1.signature
      = (doctorOverride (fun s => s) "2099-12-31T23:59:59" [] [] "T1" "D1"
          "patient re-examined").1.signature := by
  exact ⟨by decide, rfl⟩

/-- C6 amended: the override action always succeeds, appends an entry whose
tamper-seal is the hash of taskId, actorId and reason ONLY (the timestamp
and event tag are not part of the hashed material, so timestamp integrity is
not covered by the seal), and mutates no Task state. -/
theorem C6_override_amended (H : String → String) (now : String)
    (logs : List OverrideLog) (tasks : TaskTable) (t d r : String) :
    (doctorOverride H now logs tasks t d r).1.signature = H (sealInput t d r) ∧
    (doctorOverride H now logs tasks t d r).1.event = "OVERRIDE" ∧
    (doctorOverride H now logs tasks t d r).1.timestamp = now ∧
    (doctorOverride H now logs tasks t d r).1.task_id = t ∧
    (doctorOverride H now logs tasks t d r).1.doctor_id = d ∧
    (doctorOverride H now logs tasks t d r).1.reason = r ∧
    (doctorOverride H now logs tasks t d r).2.1
      = logs ++ [(doctorOverride H now logs tasks t d r).1] ∧
    (doctorOverride H now logs tasks t d r).2.2 = tasks ∧
    (∀ now2, (doctorOverride H now2 logs tasks t d r).1.signature
      = (doctorOverride H now logs tasks t d r).1.signature) :=
  ⟨rfl, rfl, rfl, rfl, rfl, rfl, rfl, rfl, fun _ => rfl⟩

/-- Closed instance of the amended C6: the seal is the hash of the three
fields, applied at a concrete hash and inputs. -/
theorem C6_override_amended_witness :
    (doctorOverride (fun s => s ++ "#") "2024-05-05" [] [] "T9" "D9" "go").1.signature
      = (fun s => s ++ "#") (sealInput "T9" "D9" "go") :=
  (C6_override_amended (fun s => s ++ "#") "2024-05-05" [] [] "T9" "D9" "go").1

/-- C9: each extraction adapter is a total function of its library outcome:
an internal failure is returned as an in-band error descriptor, never
propagated; on success the DICOM adapter returns the five metadata fields
with `"N/A"` substituted for each absent one, and the text adapters return
the extracted text. -/
theorem C9_adapters_total
    (pid pname acc sdate modality : Option String) (e : String) :
    processDicom (.ok pid pname acc sdate modality)
      = .fields (pid.getD "N/A") (pname.getD "N/A") (acc.getD "N/A")
          (sdate.getD "N/A") (modality.getD "N/A") ∧
    processDicom (.exn e) = .error e ∧
    processPdf (.exn e) = "PDF Error: " ++ e ∧
    processImageOcr (.exn e) = "OCR Error: " ++ e ∧
    (∀ pages, processPdf (.ok pages) = String.join pages) ∧
    (∀ t, processImageOcr (.ok t) = t) :=
  ⟨rfl, rfl, rfl, rfl, fun _ => rfl, fun _ => rfl⟩

/-- Closed instance of C9: a raised "bad header" exception comes back as an
in-band error descriptor. -/
theorem C9_adapters_total_witness :
    processDicom (.exn "bad header") = .error "bad header" :=
  (C9_adapters_total none none none none none "bad header").2.1

theorem aggregate_failures (fs : List Finding) :
    (aggregateStatus fs).failures = fs := by
  rw [aggregateStatus]
  split
  · rfl
  · split
    · rfl
    · split
      · rfl
      · rfl

theorem rule2_na (cd : ClaimData) : rule2 cd "N/A" = none := by
  have h : strContains "normal" (pyLower "N/A") = false := by decide
  rw [rule2]
  simp [h]

theorem rule1_conf (cd : ClaimData) (dm : DicomMeta) (f : Finding)
    (h : rule1 cd dm = some f) : f.confidence = .CRITICAL := by
  rw [rule1] at h
  split at h
  · cases Option.some_inj.mp h
    rfl
  · split at h
    · cases Option.some_inj.mp h
      rfl
    · exact Option.noConfusion h

theorem rule3_conf (cd : ClaimData) (fp : FilePaths) (f : Finding)
    (h : rule3 cd fp = some f) : f.confidence = .MEDIUM := by
  rw [rule3] at h
  split at h
  · cases Option.some_inj.mp h
    rfl
  · exact Option.noConfusion h

theorem rule4_conf (cd : ClaimData) (fp : FilePaths) (f : Finding)
    (h : rule4 cd fp = some f) : f.confidence = .CRITICAL := by
  rw [rule4] at h
  split at h
  · cases Option.some_inj.mp h
    rfl
  · exact Option.noConfusion h

/-- C10: a submission without a lab-report PDF reaches validation with the
sentinel lab text `"N/A"`; on that sentinel Rule 2 emits nothing whatever
the diagnosis says, and consequently the outcome contains no HIGH finding
at all. -/
theorem C10_no_lab_sentinel (cd : ClaimData) (fp : FilePaths) (w : World)
    (r : OkResults) (hlab : fp.lab_pdf = none)
    (h : pipelineBody cd fp w = .ok r) :
    r.lab_report_text = "N/A" ∧
    rule2 cd r.lab_report_text = none ∧
    ∀ f ∈ r.validation_result.failures, f.confidence ≠ .HIGH := by
  obtain ⟨-, hval, -, -, hlabr⟩ := pipelineBody_ok_spec cd fp w r h
  have hNA : r.lab_report_text = "N/A" := by rw [hlabr, hlab]
  refine ⟨hNA, by rw [hNA]; exact rule2_na cd, ?_⟩
  intro f hf
  have step : ∀ o : Option Finding, f ∈ o.toList → o = some f := by
    intro o hmem
    cases o with
    | none => exact absurd hmem (List.not_mem_nil f)
    | some x =>
        have hx : f = x := by simpa using hmem
        rw [hx]
  rw [hval, hNA, runValidationEngine, aggregate_failures, rule2_na cd] at hf
  rcases List.mem_append.mp hf with h123 | h4
  · rcases List.mem_append.mp h123 with h12 | h3
    · rcases List.mem_append.mp h12 with h1 | h2
      · rw [rule1_conf cd r.dicom_metadata f (step _ h1)]
        exact fun hc => Confidence.noConfusion hc
      · exact absurd (step _ h2) (fun hx => Option.noConfusion hx)
    · rw [rule3_conf cd fp f (step _ h3)]
      exact fun hc => Confidence.noConfusion hc
  · rw [rule4_conf cd fp f (step _ h4)]
    exact fun hc => Confidence.noConfusion hc

/-- Closed instance of C10: a run without a lab PDF and with diagnosis
"Critical fracture" still yields no HIGH finding. -/
theorem C10_no_lab_sentinel_witness :
    (⟨.COMPLETED, ["DICOM"], [], .fields "P3" "N/A" "N/A" "N/A" "N/A", "N/A",
        ⟨.PASSED, []⟩, some (.bundle "P3" "Critical fracture")⟩
      : OkResults).lab_report_text = "N/A" :=
  (C10_no_lab_sentinel
    { verified_patient_id := "P3", doctor_diagnosis := "Critical fracture",
      identity_data := .obj [], consent_data := .obj [("ok", .bool true)],
      patient_geotag := none }
    { dicom := "d.dcm", lab_pdf := none, identity_doc := none,
      consent_image := none, patient_photo := none }
    { dicomRead := .ok (some "P3") none none none none, pdfRead := .ok [],
      identityOcr := .ok "", consentOcr := .ok "", fhirLib := .ok (),
      orchFault := none }
    ⟨.COMPLETED, ["DICOM"], [], .fields "P3" "N/A" "N/A" "N/A" "N/A", "N/A",
      ⟨.PASSED, []⟩, some (.bundle "P3" "Critical fracture")⟩ rfl rfl).1

end AyurAnkh
